import Mathlib

/-!
Shallow embedding of the GeminiAIApp backend (FastAPI + SQLAlchemy PDF-chat
service) used to check its natural-language specification.

The embedding follows the live code wired in app/main.py:
app/services/integration_service.py (ingestion pipeline),
app/services/chat_service.py (conversation pipeline),
app/services/ai_model_service.py (response generator with retry/backoff),
app/services/history_service.py and app/utils/prompt_builder.py.

Modelling conventions:
- the upload directory is an association list from path to byte list;
- the database is a pair of insertion-ordered row lists (integrations and
  conversation_history), with monotone id counters standing for the
  autoincrement primary keys;
- uuid4().hex is modelled as a fresh-name supply driven by a counter that
  is threaded through each service call (collision resistance idealized as
  injectivity of the supply);
- pdfplumber's per-page text extraction is an oracle parameter mapping the
  file bytes to the list of per-page optional texts;
- the external generative model is an oracle parameter mapping either a
  prompt to a result or an attempt number to an attempt outcome;
- asyncio sleeps are recorded as a list of slept durations in seconds.
-/

namespace GeminiApp

instance {ε α : Type} [DecidableEq ε] [DecidableEq α] : DecidableEq (Except ε α) := by
  intro a b
  cases a <;> cases b
  case error.error x y => exact decidable_of_iff (x = y) (by simp)
  case error.ok x y => exact isFalse (by simp)
  case ok.error x y => exact isFalse (by simp)
  case ok.ok x y => exact decidable_of_iff (x = y) (by simp)

/-! ### String constants of the source -/

def emptyStr : String := ""

def spaceSep : String := " "

def nlSep : String := "\n"

def uploadDir : String := "uploads/pdf_files"

def slash : String := "/"

def pdfExt : String := ".pdf"

def invalidTypeMsg : String := "Invalid file type. Allowed types: .pdf"

def sizeLimitMsg : String := "File size exceeds the limit of 20 MB."

def noTextMsg : String := "No extractable text found."

def invalidArgMsg : String := "Invalid API key or arguments provided to the AI model."

def failGenMsg : String := "Failed to generate a response: "

/-- Settings.MAX_FILE_SIZE_MB default from app/core/config.py. -/
def maxFileSizeMB : Nat := 20

/-! ### Response Generator (app/services/ai_model_service.py)

AIModelService.generate_response loops `for attempt in range(1,
self.retry_attempts + 1)`, calling the model once per iteration.  A
success returns response.text; InvalidArgument raises AIModelError at
once; RetryError, asyncio.TimeoutError and any other exception sleep
`2 ** attempt` seconds and continue while `attempt < retry_attempts`,
and on the last attempt raise RateLimitExceededError, TimeoutError or a
generic AIModelError respectively.  If the loop finishes without
entering its body the Python function implicitly returns None, modelled
as `Except.ok none`. -/

/-- Outcome of one call to model.generate_content, as classified by the
except-clauses of generate_response. -/
inductive AttemptOutcome where
  | success (text : String)
  | invalidArgument
  | retryError
  | timeoutErr
  | otherErr (msg : String)
deriving DecidableEq, Repr

/-- Typed errors raised by generate_response (app/errors/chat_exceptions.py). -/
inductive GenError where
  | aiModel (msg : String)
  | rateLimitExceeded
  | timedOut
deriving DecidableEq, Repr

/-- Observable trace of a generate_response run: its outcome (Except.ok none
is Python's implicit None fall-through), the backoff sleeps performed in
order, and how many times the model was invoked. -/
structure GenRun where
  result : Except GenError (Option String)
  sleeps : List Nat
  calls : Nat
deriving DecidableEq, Repr

/-- The retry loop: `rem` attempts remain and the current attempt carries
index `attempt` (so the configured count is attempt + rem at entry and
`attempt < retry_attempts` is `0 < rem`). -/
def genLoop (out : Nat → AttemptOutcome) : Nat → Nat → GenRun
  | 0, _ => ⟨Except.ok none, [], 0⟩
  | rem + 1, attempt =>
    match out attempt with
    | .success t => ⟨Except.ok (some t), [], 1⟩
    | .invalidArgument => ⟨Except.error (.aiModel invalidArgMsg), [], 1⟩
    | .retryError =>
      if 0 < rem then
        let r := genLoop out rem (attempt + 1)
        ⟨r.result, 2 ^ attempt :: r.sleeps, r.calls + 1⟩
      else ⟨Except.error .rateLimitExceeded, [], 1⟩
    | .timeoutErr =>
      if 0 < rem then
        let r := genLoop out rem (attempt + 1)
        ⟨r.result, 2 ^ attempt :: r.sleeps, r.calls + 1⟩
      else ⟨Except.error .timedOut, [], 1⟩
    | .otherErr msg =>
      if 0 < rem then
        let r := genLoop out rem (attempt + 1)
        ⟨r.result, 2 ^ attempt :: r.sleeps, r.calls + 1⟩
      else ⟨Except.error (.aiModel (failGenMsg ++ msg)), [], 1⟩

/-- AIModelService.generate_response with the configured retry count and the
model-call oracle `out` (out i is what attempt number i would observe). -/
def generate_response (retry_attempts : Nat) (out : Nat → AttemptOutcome) : GenRun :=
  genLoop out retry_attempts 1

/-! ### Prompt Composer (app/services/chat_service.py _construct_prompt,
identical to app/utils/prompt_builder.py PromptBuilder.construct_prompt) -/

/-- Python str.join with a separator. -/
def joinWith (sep : String) : List String → String
  | [] => emptyStr
  | [x] => x
  | x :: xs => x ++ sep ++ joinWith sep xs

/-- Row of the conversation_history table (app/models/chat.py): integration_id
is a required foreign key, user_query and assistant_response are non-null. -/
structure TurnRecord where
  id : Nat
  integration_id : Nat
  user_query : String
  assistant_response : String
deriving DecidableEq, Repr

def userLabel : String := "User: "

def asstLabel : String := "\nAssistant: "

def nlUser : String := "\nUser: "

def nl2Assistant : String := "\n\nAssistant:"

def nlPdfContent : String := "\n\nPDF Content:\n"

def nlAssistant : String := "\nAssistant:"

/-- One serialized history entry: f"User: {h.user_query}\nAssistant: {h.assistant_response}". -/
def turnLine (t : TurnRecord) : String :=
  userLabel ++ t.user_query ++ asstLabel ++ t.assistant_response

/-- ChatService._construct_prompt: join serialized turns with newlines, append
the new query, and unless only_text append the labeled PDF-content section. -/
def construct_prompt (history : List TurnRecord) (user_query : String)
    (pdf_content : String) (only_text : Bool) : String :=
  if only_text then
    joinWith nlSep (history.map turnLine) ++ nlUser ++ user_query ++ nl2Assistant
  else
    joinWith nlSep (history.map turnLine) ++ nlUser ++ user_query
      ++ nlPdfContent ++ pdf_content ++ nlAssistant

/-! ### Data model (app/models/integration.py, app/models/chat.py)

Tables are insertion-ordered row lists; the id counters stand for the
autoincrement primary keys.  A SELECT ... WHERE with no ORDER BY is read
back in rowid (insertion) order, modelled as List.filter. -/

/-- Row of the integrations table (fields the claims touch). -/
structure IntegrationRecord where
  id : Nat
  filename : String
  content : String
  page_count : Nat
deriving DecidableEq, Repr

structure DB where
  integrations : List IntegrationRecord
  turns : List TurnRecord
  nextIntegrationId : Nat
  nextTurnId : Nat
deriving DecidableEq, Repr

/-- HistoryService.fetch_conversation_history / ChatService._fetch_conversation_history:
select(ConversationHistory).where(integration_id == iid). -/
def fetch_conversation_history (turns : List TurnRecord) (iid : Nat) : List TurnRecord :=
  turns.filter (fun t => t.integration_id == iid)

/-- ChatService._save_conversation_history: add one row and commit. -/
def save_conversation_history (iid : Nat) (q r : String) (db : DB) : DB :=
  { db with turns := db.turns ++ [⟨db.nextTurnId, iid, q, r⟩],
            nextTurnId := db.nextTurnId + 1 }

/-! ### Conversation Pipeline (app/services/chat_service.py generate_response) -/

inductive ChatError where
  | notFound (iid : Nat)
  | emptyContent (iid : Nat)
  | modelFailure
deriving DecidableEq, Repr

/-- Observable trace of one ChatService.generate_response call: the outcome,
the database afterwards, and the prompts sent to the external model. -/
structure ChatRun where
  result : Except ChatError String
  db : DB
  prompts : List String
deriving DecidableEq, Repr

/-- ChatService.generate_response: fetch content (notFound if the id is absent,
emptyContent when `not pdf.content`, i.e. the content string is empty), fetch
history, construct the prompt, call the model, and on success persist the
turn.  The external model is the oracle modelFn. -/
def chat_generate_response (modelFn : String → Except Unit String) (iid : Nat)
    (q : String) (only_text : Bool) (db : DB) : ChatRun :=
  match db.integrations.find? (fun r => r.id == iid) with
  | none => ⟨Except.error (.notFound iid), db, []⟩
  | some pdf =>
    if pdf.content = emptyStr then ⟨Except.error (.emptyContent iid), db, []⟩
    else
      let prompt := construct_prompt (fetch_conversation_history db.turns iid) q pdf.content only_text
      match modelFn prompt with
      | .error _ => ⟨Except.error .modelFailure, db, [prompt]⟩
      | .ok resp => ⟨Except.ok resp, save_conversation_history iid q resp db, [prompt]⟩

/-! ### File Store (the upload directory as a path-to-bytes association map) -/

abbrev Disk := List (String × List Nat)

def diskErase (d : Disk) (p : String) : Disk := d.filter (fun e => e.1 != p)

def diskWrite (d : Disk) (p : String) (b : List Nat) : Disk := (p, b) :: diskErase d p

def diskLookup (d : Disk) (p : String) : Option (List Nat) :=
  (d.find? (fun e => e.1 == p)).map Prod.snd

def diskExists (d : Disk) (p : String) : Bool := (diskLookup d p).isSome

/-! ### Filename handling -/

/-- Helper for splitExt, walking the reversed character list up to the last dot. -/
def extSplitRev : List Char → Option (List Char × List Char)
  | [] => none
  | c :: rest =>
    if c = '.' then some ([c], rest)
    else (extSplitRev rest).map (fun p => (p.1 ++ [c], p.2))

/-- os.path.splitext restricted to bare filenames: split at the last dot; a
basename consisting of leading dots has no extension. -/
def splitExt (s : String) : String × String :=
  match extSplitRev s.data.reverse with
  | none => (s, emptyStr)
  | some (e, r) =>
    if r.all (fun c => c = '.') then (s, emptyStr)
    else (String.mk r.reverse, String.mk e)

def lowerStr (s : String) : String := String.mk (s.data.map Char.toLower)

/-- uuid4().hex modelled as a fresh-name supply: call number c yields c+1
copies of the letter u, so distinct calls give distinct names (the
idealization of uuid collision resistance). -/
def uuidHex (c : Nat) : String := String.mk (List.replicate (c + 1) 'u')

/-- IntegrationService._generate_unique_filename at uuid-supply position c. -/
def generate_unique_filename (c : Nat) (original : String) : String :=
  uuidHex c ++ (splitExt original).2

/-- os.path.join(UPLOAD_DIR, name). -/
def uploadPath (name : String) : String := uploadDir ++ slash ++ name

/-! ### Ingestion Pipeline (app/services/integration_service.py) -/

/-- An uploaded file: its client-supplied name and raw bytes. -/
structure UploadFile where
  filename : String
  bytes : List Nat
deriving DecidableEq, Repr

/-- Service-level failures surfaced by IntegrationService (HTTPException 400
for validation, IntegrationNotFoundException, PDFExtractionError, and a
failed pdfplumber.open). -/
inductive SvcError where
  | validation (detail : String)
  | notFound (iid : Nat)
  | extraction (detail : String)
  | openFailed
deriving DecidableEq, Repr

/-- Whole service state: upload directory, database, uuid supply position. -/
structure Sys where
  disk : Disk
  db : DB
  uuidCtr : Nat
deriving DecidableEq, Repr

/-- IntegrationService._validate_file: extension must be .pdf (lower-cased)
and the size must not exceed MAX_FILE_SIZE_MB megabytes. -/
def validate_file (file : UploadFile) : Except SvcError Unit :=
  if lowerStr (splitExt file.filename).2 ≠ pdfExt then
    Except.error (.validation invalidTypeMsg)
  else if maxFileSizeMB * 1024 * 1024 < file.bytes.length then
    Except.error (.validation sizeLimitMsg)
  else Except.ok ()

/-- IntegrationService._save_file_to_disk: draw a fresh unique name, write the
bytes under UPLOAD_DIR, return the file path. -/
def save_file_to_disk (file : UploadFile) (s : Sys) : String × Sys :=
  let path := uploadPath (generate_unique_filename s.uuidCtr file.filename)
  (path, { s with disk := diskWrite s.disk path file.bytes, uuidCtr := s.uuidCtr + 1 })

structure ExtractOut where
  content : String
  page_count : Nat
deriving DecidableEq, Repr

/-- The joining step of _sync_extract_text: Python filter(None, page_texts)
drops None pages and empty-string pages, then " ".join concatenates. -/
def joinedPageText (pages : List (Option String)) : String :=
  joinWith spaceSep ((pages.filterMap id).filter (fun t => t != emptyStr))

/-- IntegrationService._sync_extract_text: join the per-page texts; if the
joined text strips to nothing raise PDFExtractionError, else return the
content together with the page count. -/
def sync_extract_text (pages : List (Option String)) : Except SvcError ExtractOut :=
  let content := joinedPageText pages
  if content.data.all Char.isWhitespace then Except.error (.extraction noTextMsg)
  else Except.ok ⟨content, pages.length⟩

/-- IntegrationService._extract_text_from_pdf: open the stored file and extract;
pdfplumber's page texts are the oracle `extract` applied to the file bytes. -/
def extract_text_from_pdf (extract : List Nat → List (Option String))
    (disk : Disk) (path : String) : Except SvcError ExtractOut :=
  match diskLookup disk path with
  | none => Except.error .openFailed
  | some bytes => sync_extract_text (extract bytes)

/-- re.sub(r"\s+", " ", text): each maximal whitespace run becomes one space. -/
def collapseWsAux : List Char → Bool → List Char
  | [], _ => []
  | c :: rest, prevWs =>
    if c.isWhitespace then
      if prevWs then collapseWsAux rest true
      else ' ' :: collapseWsAux rest true
    else c :: collapseWsAux rest false

/-- Character class kept by re.sub(r"[^a-zA-Z0-9\s,.?!]", "", text). -/
def allowedChar (c : Char) : Bool :=
  c.isAlphanum || c.isWhitespace || c == ',' || c == '.' || c == '?' || c == '!'

/-- str.strip(): drop leading and trailing whitespace. -/
def stripChars (cs : List Char) : List Char :=
  ((cs.dropWhile Char.isWhitespace).reverse.dropWhile Char.isWhitespace).reverse

/-- IntegrationService._preprocess_text: collapse whitespace, drop characters
outside the allowed class, strip. -/
def preprocess_text (text : String) : String :=
  String.mk (stripChars ((collapseWsAux text.data false).filter allowedChar))

/-- IntegrationService._save_integration_record: add the row and commit;
the returned id is the fresh primary key. -/
def save_integration_record (filename content : String) (page_count : Nat) (s : Sys) :
    Nat × Sys :=
  (s.db.nextIntegrationId,
   { s with db := { s.db with
      integrations := s.db.integrations
        ++ [⟨s.db.nextIntegrationId, filename, content, page_count⟩],
      nextIntegrationId := s.db.nextIntegrationId + 1 } })

/-- IntegrationService.get_integration_by_id: first row with this id, else
IntegrationNotFoundException. -/
def get_integration_by_id (iid : Nat) (db : DB) : Except SvcError IntegrationRecord :=
  match db.integrations.find? (fun r => r.id == iid) with
  | none => Except.error (.notFound iid)
  | some r => Except.ok r

/-- IntegrationService.process_integration: validate, save to disk, extract,
preprocess, draw another unique filename for the record, save the record.
Any raised error propagates with the state as it stands at that point. -/
def process_integration (extract : List Nat → List (Option String))
    (file : UploadFile) (s : Sys) : Except SvcError Nat × Sys :=
  match validate_file file with
  | .error e => (Except.error e, s)
  | .ok _ =>
    match save_file_to_disk file s with
    | (file_path, s1) =>
      match extract_text_from_pdf extract s1.disk file_path with
      | .error e => (Except.error e, s1)
      | .ok pdf_data =>
        match save_integration_record (generate_unique_filename s1.uuidCtr file.filename)
            (preprocess_text pdf_data.content) pdf_data.page_count
            { s1 with uuidCtr := s1.uuidCtr + 1 } with
        | (iid, s2) => (Except.ok iid, s2)

/-- The in-place record update performed by update_pdf before its commit. -/
def updateRecord (db : DB) (iid : Nat) (filename content : String) (page_count : Nat) : DB :=
  { db with integrations := db.integrations.map (fun r =>
      if r.id = iid then
        { r with filename := filename, content := content, page_count := page_count }
      else r) }

/-- IntegrationService.update_pdf: validate the new file, look up the record,
delete the old file from disk, save the new file, extract, then update the
record fields (filename receives the client-supplied file.filename) and
commit.  No backup is taken and nothing is restored on failure. -/
def update_pdf (extract : List Nat → List (Option String)) (iid : Nat)
    (file : UploadFile) (s : Sys) : Except SvcError Nat × Sys :=
  match validate_file file with
  | .error e => (Except.error e, s)
  | .ok _ =>
    match get_integration_by_id iid s.db with
    | .error e => (Except.error e, s)
    | .ok record =>
      let s1 := { s with disk := diskErase s.disk (uploadPath record.filename) }
      match save_file_to_disk file s1 with
      | (new_path, s2) =>
        match extract_text_from_pdf extract s2.disk new_path with
        | .error e => (Except.error e, s2)
        | .ok pdf_data =>
          let db2 := updateRecord s2.db iid file.filename
            (preprocess_text pdf_data.content) pdf_data.page_count
          (Except.ok iid, { s2 with db := db2 })

/-- IntegrationService.delete_integration: look up the record, delete its file
from disk (missing file is a logged no-op), delete the record (cascading to
its conversation turns) and commit. -/
def delete_integration (iid : Nat) (s : Sys) : Except SvcError Unit × Sys :=
  match get_integration_by_id iid s.db with
  | .error e => (Except.error e, s)
  | .ok record =>
    (Except.ok (),
     { s with disk := diskErase s.disk (uploadPath record.filename),
              db := { s.db with
                integrations := s.db.integrations.filter (fun r => r.id != iid),
                turns := s.db.turns.filter (fun t => t.integration_id != iid) } })

/-! ### Concrete example inputs used by witnesses and counterexamples -/

def qWhat : String := "What is this about?"

def helloWorld : String := "Hello world"

def respSample : String := "A sample answer."

def testPdf : String := "test.pdf"

def scanPdf : String := "scan.pdf"

def newPdf : String := "new.pdf"

def origPdf : String := "orig.pdf"

def notesTxt : String := "notes.txt"

def spaceOnly : String := " "

def extractNone : List Nat → List (Option String) := fun _ => [none]

def extractHello : List Nat → List (Option String) := fun _ => [some helloWorld]

def sEmpty : Sys := ⟨[], ⟨[], [], 0, 0⟩, 0⟩

def filePdf : UploadFile := ⟨testPdf, [1, 2]⟩

def fileScan : UploadFile := ⟨scanPdf, [3, 4]⟩

def fileNew : UploadFile := ⟨newPdf, [9]⟩

def fileTxt : UploadFile := ⟨notesTxt, [1]⟩

/-- State holding one processed document whose file orig.pdf is on disk. -/
def sOrig : Sys :=
  ⟨[(uploadPath origPdf, [1, 2, 3])], ⟨[⟨1, origPdf, helloWorld, 1⟩], [], 2, 0⟩, 0⟩

/-- State after process_integration extractHello filePdf sEmpty. -/
def sAfterCreate : Sys :=
  ⟨[(uploadPath (generate_unique_filename 0 testPdf), [1, 2])],
   ⟨[⟨0, generate_unique_filename 1 testPdf, helloWorld, 1⟩], [], 1, 0⟩, 2⟩

/-- State after delete_integration 0 sAfterCreate. -/
def sAfterDelete : Sys :=
  ⟨[(uploadPath (generate_unique_filename 0 testPdf), [1, 2])], ⟨[], [], 1, 0⟩, 2⟩

def dbOne : DB := ⟨[⟨1, testPdf, helloWorld, 1⟩], [], 2, 0⟩

def dbWs : DB := ⟨[⟨1, testPdf, spaceOnly, 1⟩], [], 2, 0⟩

def dbEmptyContent : DB := ⟨[⟨1, testPdf, emptyStr, 1⟩], [], 2, 0⟩

def modelFail : String → Except Unit String := fun _ => Except.error ()

def modelOk : String → Except Unit String := fun _ => Except.ok respSample

def outRetryTwice : Nat → AttemptOutcome :=
  fun i => if i < 3 then .retryError else .success respSample

def outRetryAlways : Nat → AttemptOutcome := fun _ => .retryError

def outTimeoutAlways : Nat → AttemptOutcome := fun _ => .timeoutErr

/-! ### Retry-loop lemmas -/

theorem genLoop_step_retry (out : Nat → AttemptOutcome) (rem a : Nat)
    (h : out a = .retryError) :
    genLoop out (rem + 1 + 1) a
      = ⟨(genLoop out (rem + 1) (a + 1)).result,
         2 ^ a :: (genLoop out (rem + 1) (a + 1)).sleeps,
         (genLoop out (rem + 1) (a + 1)).calls + 1⟩ := by
  conv_lhs => rw [genLoop.eq_def]
  simp [h]

theorem genLoop_step_timeout (out : Nat → AttemptOutcome) (rem a : Nat)
    (h : out a = .timeoutErr) :
    genLoop out (rem + 1 + 1) a
      = ⟨(genLoop out (rem + 1) (a + 1)).result,
         2 ^ a :: (genLoop out (rem + 1) (a + 1)).sleeps,
         (genLoop out (rem + 1) (a + 1)).calls + 1⟩ := by
  conv_lhs => rw [genLoop.eq_def]
  simp [h]

theorem genLoop_step_other (out : Nat → AttemptOutcome) (rem a : Nat) (msg : String)
    (h : out a = .otherErr msg) :
    genLoop out (rem + 1 + 1) a
      = ⟨(genLoop out (rem + 1) (a + 1)).result,
         2 ^ a :: (genLoop out (rem + 1) (a + 1)).sleeps,
         (genLoop out (rem + 1) (a + 1)).calls + 1⟩ := by
  conv_lhs => rw [genLoop.eq_def]
  simp [h]

theorem range_pow_succ (a n : Nat) :
    (List.range (n + 1)).map (fun i => 2 ^ (a + i))
      = 2 ^ a :: (List.range n).map (fun i => 2 ^ (a + 1 + i)) := by
  rw [List.range_succ_eq_map, List.map_cons, List.map_map]
  refine congrArg₂ _ (by rw [Nat.add_zero]) ?_
  refine List.map_congr_left (fun i _ => ?_)
  simp only [Function.comp]
  exact congrArg _ (by omega)

theorem genLoop_success_prefix (out : Nat → AttemptOutcome) (t : String) :
    ∀ (j rem a : Nat), j ≤ rem →
      (∀ i, i < j → out (a + i) = .retryError) → out (a + j) = .success t →
      genLoop out (rem + 1) a
        = ⟨Except.ok (some t), (List.range j).map (fun i => 2 ^ (a + i)), j + 1⟩ := by
  intro j
  induction j with
  | zero =>
    intro rem a _ _ hs
    rw [Nat.add_zero] at hs
    simp [genLoop, hs]
  | succ j ih =>
    intro rem a hle hfail hs
    have h0 : out a = .retryError := by
      have := hfail 0 (Nat.succ_pos j)
      rwa [Nat.add_zero] at this
    obtain ⟨rem', rfl⟩ : ∃ m, rem = m + 1 := ⟨rem - 1, by omega⟩
    have hrec : genLoop out (rem' + 1) (a + 1)
        = ⟨Except.ok (some t), (List.range j).map (fun i => 2 ^ (a + 1 + i)), j + 1⟩ := by
      refine ih rem' (a + 1) (by omega) (fun i hi => ?_) ?_
      · have := hfail (i + 1) (by omega)
        rwa [show a + (i + 1) = a + 1 + i by omega] at this
      · rwa [show a + (j + 1) = a + 1 + j by omega] at hs
    rw [genLoop_step_retry out rem' a h0, hrec, range_pow_succ]

theorem genLoop_retry_all (out : Nat → AttemptOutcome) :
    ∀ (rem a : Nat), (∀ i, i ≤ rem → out (a + i) = .retryError) →
      genLoop out (rem + 1) a
        = ⟨Except.error .rateLimitExceeded, (List.range rem).map (fun i => 2 ^ (a + i)), rem + 1⟩ := by
  intro rem
  induction rem with
  | zero =>
    intro a hfail
    have h0 : out a = .retryError := by
      have := hfail 0 (Nat.le_refl 0)
      rwa [Nat.add_zero] at this
    simp [genLoop, h0]
  | succ rem ih =>
    intro a hfail
    have h0 : out a = .retryError := by
      have := hfail 0 (Nat.zero_le _)
      rwa [Nat.add_zero] at this
    have hrec := ih (a + 1) (fun i hi => by
      have := hfail (i + 1) (by omega)
      rwa [show a + (i + 1) = a + 1 + i by omega] at this)
    rw [genLoop_step_retry out rem a h0, hrec, range_pow_succ]

theorem genLoop_timeout_all (out : Nat → AttemptOutcome) :
    ∀ (rem a : Nat), (∀ i, i ≤ rem → out (a + i) = .timeoutErr) →
      genLoop out (rem + 1) a
        = ⟨Except.error .timedOut, (List.range rem).map (fun i => 2 ^ (a + i)), rem + 1⟩ := by
  intro rem
  induction rem with
  | zero =>
    intro a hfail
    have h0 : out a = .timeoutErr := by
      have := hfail 0 (Nat.le_refl 0)
      rwa [Nat.add_zero] at this
    simp [genLoop, h0]
  | succ rem ih =>
    intro a hfail
    have h0 : out a = .timeoutErr := by
      have := hfail 0 (Nat.zero_le _)
      rwa [Nat.add_zero] at this
    have hrec := ih (a + 1) (fun i hi => by
      have := hfail (i + 1) (by omega)
      rwa [show a + (i + 1) = a + 1 + i by omega] at this)
    rw [genLoop_step_timeout out rem a h0, hrec, range_pow_succ]

theorem genLoop_ne_ok_none (out : Nat → AttemptOutcome) :
    ∀ (rem a : Nat), (genLoop out (rem + 1) a).result ≠ Except.ok none := by
  intro rem
  induction rem with
  | zero =>
    intro a
    cases h : out a <;> simp [genLoop, h]
  | succ rem ih =>
    intro a
    cases h : out a
    case success t => simp [genLoop, h]
    case invalidArgument => simp [genLoop, h]
    case retryError =>
      rw [genLoop_step_retry out rem a h]
      simpa using ih (a + 1)
    case timeoutErr =>
      rw [genLoop_step_timeout out rem a h]
      simpa using ih (a + 1)
    case otherErr msg =>
      rw [genLoop_step_other out rem a msg h]
      simpa using ih (a + 1)

/-! ### File-store lemmas -/

theorem diskLookup_write_self (d : Disk) (p : String) (b : List Nat) :
    diskLookup (diskWrite d p b) p = some b := by
  simp [diskLookup, diskWrite]

/-! ### C1: cleanup of the stored file when extraction fails in create -/

/-- C1 counterexample: uploading a one-page PDF with no extractable text makes
process_integration fail with the extraction error, yet the file written for
this upload is still present in the upload directory afterwards — the claim
that no file from the upload remains is false on the code. -/
theorem C1_counterexample :
    (process_integration extractNone fileScan sEmpty).1
        = Except.error (SvcError.extraction noTextMsg)
  ∧ diskExists (process_integration extractNone fileScan sEmpty).2.disk
        (uploadPath (generate_unique_filename 0 scanPdf)) = true := by decide

/-- C1 (amended): when text extraction of the uploaded file fails,
process_integration raises the extraction error and leaves the database
untouched, but it does not delete the file it just stored: the post state
keeps exactly that file written in the upload directory. -/
theorem C1_create_extraction_failure_leaves_file
    (extract : List Nat → List (Option String)) (file : UploadFile) (s : Sys)
    (hv : validate_file file = Except.ok ())
    (hx : (joinedPageText (extract file.bytes)).data.all Char.isWhitespace = true) :
    process_integration extract file s
      = (Except.error (SvcError.extraction noTextMsg),
         { s with
            disk := diskWrite s.disk
              (uploadPath (generate_unique_filename s.uuidCtr file.filename)) file.bytes,
            uuidCtr := s.uuidCtr + 1 }) := by
  have hlook := diskLookup_write_self s.disk
    (uploadPath (generate_unique_filename s.uuidCtr file.filename)) file.bytes
  simp [process_integration, hv, save_file_to_disk, extract_text_from_pdf, hlook,
    sync_extract_text, hx]

/-- C1 witness: the amended statement evaluated on the concrete no-text upload. -/
theorem C1_create_extraction_failure_leaves_file_witness :
    process_integration extractNone fileScan sEmpty
      = (Except.error (SvcError.extraction noTextMsg),
         { sEmpty with
            disk := diskWrite sEmpty.disk
              (uploadPath (generate_unique_filename sEmpty.uuidCtr fileScan.filename)) fileScan.bytes,
            uuidCtr := sEmpty.uuidCtr + 1 }) :=
  C1_create_extraction_failure_leaves_file extractNone fileScan sEmpty (by decide) (by decide)

/-! ### C2: backup/restore on a failed replace -/

/-- C2 counterexample: replacing orig.pdf by a file whose extraction fails
leaves the document record untouched, but the original on-disk file is gone
afterwards — no backup was taken and nothing is restored, so the claim that
the original file is byte-for-byte unchanged is false on the code. -/
theorem C2_counterexample :
    (update_pdf extractNone 1 fileNew sOrig).1 = Except.error (SvcError.extraction noTextMsg)
  ∧ diskExists (update_pdf extractNone 1 fileNew sOrig).2.disk (uploadPath origPdf) = false
  ∧ (update_pdf extractNone 1 fileNew sOrig).2.db = sOrig.db := by decide

/-- C2 (amended): when extraction of the replacement file fails, update_pdf
propagates the extraction error and the original document record is untouched,
but the original file has already been deleted from disk (update_pdf deletes
it before writing the new file and performs no backup or restore); the newly
written, unextractable file remains on disk. -/
theorem C2_replace_failure_state (extract : List Nat → List (Option String))
    (iid : Nat) (file : UploadFile) (s : Sys) (record : IntegrationRecord)
    (hv : validate_file file = Except.ok ())
    (hf : s.db.integrations.find? (fun r => r.id == iid) = some record)
    (hx : (joinedPageText (extract file.bytes)).data.all Char.isWhitespace = true) :
    update_pdf extract iid file s
      = (Except.error (SvcError.extraction noTextMsg),
         { s with
            disk := diskWrite (diskErase s.disk (uploadPath record.filename))
              (uploadPath (generate_unique_filename s.uuidCtr file.filename)) file.bytes,
            uuidCtr := s.uuidCtr + 1 }) := by
  have hlook := diskLookup_write_self (diskErase s.disk (uploadPath record.filename))
    (uploadPath (generate_unique_filename s.uuidCtr file.filename)) file.bytes
  simp [update_pdf, hv, get_integration_by_id, hf, save_file_to_disk,
    extract_text_from_pdf, hlook, sync_extract_text, hx]

/-- C2 witness: the amended statement evaluated on the concrete failed replace. -/
theorem C2_replace_failure_state_witness :
    update_pdf extractNone 1 fileNew sOrig
      = (Except.error (SvcError.extraction noTextMsg),
         { sOrig with
            disk := diskWrite (diskErase sOrig.disk (uploadPath origPdf))
              (uploadPath (generate_unique_filename sOrig.uuidCtr fileNew.filename)) fileNew.bytes,
            uuidCtr := sOrig.uuidCtr + 1 }) :=
  C2_replace_failure_state extractNone 1 fileNew sOrig ⟨1, origPdf, helloWorld, 1⟩
    (by decide) (by decide) (by decide)

/-! ### C3: the stored record filename versus the file written to disk -/

/-- C3 (code bug, evaluated): a successful upload stores the file on disk
under the first freshly drawn unique name, but the Document record receives a
second, different freshly drawn name; delete_integration then removes the
record yet leaves the disk unchanged — the blob written for the upload is
orphaned, contradicting the claim that the record filename names the written
file and that delete removes both. -/
theorem C3_record_filename_mismatch :
    process_integration extractHello filePdf sEmpty = (Except.ok 0, sAfterCreate)
  ∧ sAfterCreate.db.integrations.map IntegrationRecord.filename
      = [generate_unique_filename 1 testPdf]
  ∧ generate_unique_filename 1 testPdf ≠ generate_unique_filename 0 testPdf
  ∧ diskExists sAfterCreate.disk (uploadPath (generate_unique_filename 0 testPdf)) = true
  ∧ diskExists sAfterCreate.disk (uploadPath (generate_unique_filename 1 testPdf)) = false
  ∧ delete_integration 0 sAfterCreate = (Except.ok (), sAfterDelete)
  ∧ sAfterDelete.db.integrations = []
  ∧ sAfterDelete.disk = sAfterCreate.disk := by decide

/-! ### C4: the exact prompt -/

/-- C4: with empty history, query "What is this about?" and content
"Hello world", the document-text-included prompt is exactly the scenario
string; with only_text the prompt does not depend on the document content at
all; and a prior turn is serialized as the two labeled lines before the new
query. -/
theorem C4_prompt_exact :
    construct_prompt [] qWhat helloWorld false
        = "\nUser: What is this about?\n\nPDF Content:\nHello world\nAssistant:"
  ∧ (∀ history q c c', construct_prompt history q c true = construct_prompt history q c' true)
  ∧ (∀ t q c, construct_prompt [t] q c false
        = userLabel ++ t.user_query ++ asstLabel ++ t.assistant_response
          ++ nlUser ++ q ++ nlPdfContent ++ c ++ nlAssistant) := by
  refine ⟨by decide, fun history q c c' => rfl, fun t q c => ?_⟩
  simp [construct_prompt, joinWith, turnLine, String.append_assoc]

/-! ### C5: retry with exponential backoff -/

/-- C5: with n configured attempts, rate-limit failures on attempts 1..k-1 and
success on attempt k give the k-th result with backoff sleeps 2^1..2^(k-1);
if every attempt hits a rate-limit (resp. timeout) condition the call fails
with RateLimitExceededError (resp. TimeoutError) after exactly n-1 backoff
sleeps and n model invocations. -/
theorem C5_retry_backoff (n k : Nat) (t : String)
    (out outR outT : Nat → AttemptOutcome) :
    (1 ≤ k → k ≤ n → (∀ i, 1 ≤ i → i < k → out i = .retryError) → out k = .success t →
      generate_response n out
        = ⟨Except.ok (some t), (List.range (k - 1)).map (fun i => 2 ^ (i + 1)), k⟩)
  ∧ (1 ≤ n → (∀ i, 1 ≤ i → i ≤ n → outR i = .retryError) →
      generate_response n outR
        = ⟨Except.error .rateLimitExceeded, (List.range (n - 1)).map (fun i => 2 ^ (i + 1)), n⟩)
  ∧ (1 ≤ n → (∀ i, 1 ≤ i → i ≤ n → outT i = .timeoutErr) →
      generate_response n outT
        = ⟨Except.error .timedOut, (List.range (n - 1)).map (fun i => 2 ^ (i + 1)), n⟩) := by
  refine ⟨?_, ?_, ?_⟩
  · intro hk hkn hfail hs
    obtain ⟨m, rfl⟩ : ∃ m, n = m + 1 := ⟨n - 1, by omega⟩
    have hpre := genLoop_success_prefix out t (k - 1) m 1 (by omega)
      (fun i hi => hfail (1 + i) (by omega) (by omega))
      (by rwa [show 1 + (k - 1) = k by omega])
    rw [generate_response, hpre]
    have h1 : (List.range (k - 1)).map (fun i => 2 ^ (1 + i))
        = (List.range (k - 1)).map (fun i => 2 ^ (i + 1)) :=
      List.map_congr_left (fun i _ => congrArg (fun e => 2 ^ e) (by omega))
    rw [h1, show k - 1 + 1 = k by omega]
  · intro hn hfail
    obtain ⟨m, rfl⟩ : ∃ m, n = m + 1 := ⟨n - 1, by omega⟩
    have hall := genLoop_retry_all outR m 1 (fun i hi => hfail (1 + i) (by omega) (by omega))
    rw [generate_response, hall]
    have h1 : (List.range m).map (fun i => 2 ^ (1 + i))
        = (List.range m).map (fun i => 2 ^ (i + 1)) :=
      List.map_congr_left (fun i _ => congrArg (fun e => 2 ^ e) (by omega))
    rw [h1]
    simp
  · intro hn hfail
    obtain ⟨m, rfl⟩ : ∃ m, n = m + 1 := ⟨n - 1, by omega⟩
    have hall := genLoop_timeout_all outT m 1 (fun i hi => hfail (1 + i) (by omega) (by omega))
    rw [generate_response, hall]
    have h1 : (List.range m).map (fun i => 2 ^ (1 + i))
        = (List.range m).map (fun i => 2 ^ (i + 1)) :=
      List.map_congr_left (fun i _ => congrArg (fun e => 2 ^ e) (by omega))
    rw [h1]
    simp

/-- C5 witness: three attempts with the first two rate-limited return the
third result after sleeping 2 then 4 seconds; two rate-limited (resp. timed
out) attempts raise the typed error after one 2-second sleep. -/
theorem C5_retry_backoff_witness :
    generate_response 3 outRetryTwice = ⟨Except.ok (some respSample), [2, 4], 3⟩
  ∧ generate_response 2 outRetryAlways = ⟨Except.error GenError.rateLimitExceeded, [2], 2⟩
  ∧ generate_response 2 outTimeoutAlways = ⟨Except.error GenError.timedOut, [2], 2⟩ := by
  refine ⟨?_, ?_, ?_⟩
  · exact ((C5_retry_backoff 3 3 respSample outRetryTwice outRetryTwice outRetryTwice).1
      (by decide) (by decide) (fun i h1 h2 => by simp [outRetryTwice, h2])
      (by decide)).trans (by decide)
  · exact ((C5_retry_backoff 2 0 emptyStr outRetryAlways outRetryAlways outRetryAlways).2.1
      (by decide) (fun i h1 h2 => rfl)).trans (by decide)
  · exact ((C5_retry_backoff 2 0 emptyStr outTimeoutAlways outTimeoutAlways outTimeoutAlways).2.2
      (by decide) (fun i h1 h2 => rfl)).trans (by decide)

/-! ### C6: no partial conversation turn -/

/-- C6: whenever a chat request fails (in particular when the model invocation
fails) the conversation history is exactly what it was before the call, and a
successful request appends exactly one turn carrying both the user query and
the returned assistant response — turns are always atomic pairs. -/
theorem C6_atomic_turn (modelFn : String → Except Unit String)
    (iid : Nat) (q : String) (ot : Bool) (db : DB) :
    ((chat_generate_response modelFn iid q ot db).result.isOk = false →
      (chat_generate_response modelFn iid q ot db).db.turns = db.turns)
  ∧ (∀ r, (chat_generate_response modelFn iid q ot db).result = Except.ok r →
      (chat_generate_response modelFn iid q ot db).db.turns
        = db.turns ++ [⟨db.nextTurnId, iid, q, r⟩]) := by
  cases hf : db.integrations.find? (fun r => r.id == iid) with
  | none => simp [chat_generate_response, hf]
  | some pdf =>
    by_cases hc : pdf.content = emptyStr
    · simp [chat_generate_response, hf, hc]
    · cases hm : modelFn (construct_prompt (fetch_conversation_history db.turns iid) q pdf.content ot) with
      | error e => simp [chat_generate_response, hf, hc, hm]
      | ok r =>
        simp [chat_generate_response, hf, hc, hm, save_conversation_history,
          Except.isOk, Except.toBool]

/-- C6 witness: on a concrete document, a failing model call leaves the turn
table unchanged and a successful one appends the atomic pair. -/
theorem C6_atomic_turn_witness :
    (chat_generate_response modelFail 1 qWhat false dbOne).db.turns = dbOne.turns
  ∧ (chat_generate_response modelOk 1 qWhat false dbOne).db.turns
      = dbOne.turns ++ [⟨dbOne.nextTurnId, 1, qWhat, respSample⟩] :=
  ⟨(C6_atomic_turn modelFail 1 qWhat false dbOne).1 (by decide),
   (C6_atomic_turn modelOk 1 qWhat false dbOne).2 respSample (by decide)⟩

/-! ### C7: the empty-content check -/

/-- C7 counterexample: on a document whose stored content is the single space
" ", the chat pipeline does not fail with the empty-content error — it
succeeds and one prompt is sent to the model, so the claim that
whitespace-only content is rejected before any model call is false on the
code (the check is merely `not pdf.content`). -/
theorem C7_counterexample :
    (chat_generate_response modelOk 1 qWhat false dbWs).result = Except.ok respSample
  ∧ (chat_generate_response modelOk 1 qWhat false dbWs).prompts
      = [construct_prompt [] qWhat spaceOnly false] := by decide

/-- C7 (amended): for an existing document the chat pipeline fails with the
empty-content error, before any model call, exactly when the stored content is
the empty string; on any non-empty content (including whitespace-only) exactly
one prompt is sent to the model. -/
theorem C7_empty_content_check (modelFn : String → Except Unit String)
    (iid : Nat) (q : String) (ot : Bool) (db : DB) (pdf : IntegrationRecord)
    (hf : db.integrations.find? (fun r => r.id == iid) = some pdf) :
    (pdf.content = emptyStr →
      chat_generate_response modelFn iid q ot db
        = ⟨Except.error (.emptyContent iid), db, []⟩)
  ∧ (pdf.content ≠ emptyStr →
      (chat_generate_response modelFn iid q ot db).prompts
        = [construct_prompt (fetch_conversation_history db.turns iid) q pdf.content ot]) := by
  constructor
  · intro hc
    simp [chat_generate_response, hf, hc]
  · intro hc
    cases hm : modelFn (construct_prompt (fetch_conversation_history db.turns iid) q pdf.content ot) with
    | error e => simp [chat_generate_response, hf, hc, hm]
    | ok r => simp [chat_generate_response, hf, hc, hm]

/-- C7 witness: empty content is rejected with no model call; the
whitespace-only document gets exactly one model call. -/
theorem C7_empty_content_check_witness :
    chat_generate_response modelOk 1 qWhat false dbEmptyContent
        = ⟨Except.error (ChatError.emptyContent 1), dbEmptyContent, []⟩
  ∧ (chat_generate_response modelOk 1 qWhat false dbWs).prompts
      = [construct_prompt (fetch_conversation_history dbWs.turns 1) qWhat spaceOnly false] :=
  ⟨(C7_empty_content_check modelOk 1 qWhat false dbEmptyContent
      ⟨1, testPdf, emptyStr, 1⟩ (by decide)).1 rfl,
   (C7_empty_content_check modelOk 1 qWhat false dbWs
      ⟨1, testPdf, spaceOnly, 1⟩ (by decide)).2 (by decide)⟩

/-! ### C8: history is read back in insertion order -/

/-- C8: fetching a document's conversation history returns exactly its turns
as an in-order sublist of the insertion-ordered table: appending a turn of the
same document appends it to the fetched history, appending a turn of another
document leaves the fetched history unchanged, and every fetched turn belongs
to the requested document. -/
theorem C8_history_insertion_order (db : DB) (iid other : Nat) (q r : String) :
    fetch_conversation_history (save_conversation_history iid q r db).turns iid
      = fetch_conversation_history db.turns iid ++ [⟨db.nextTurnId, iid, q, r⟩]
  ∧ (other ≠ iid →
      fetch_conversation_history (save_conversation_history other q r db).turns iid
        = fetch_conversation_history db.turns iid)
  ∧ (fetch_conversation_history db.turns iid).Sublist db.turns
  ∧ (∀ t, t ∈ fetch_conversation_history db.turns iid → t.integration_id = iid) := by
  refine ⟨?_, ?_, ?_, ?_⟩
  · simp [fetch_conversation_history, save_conversation_history, List.filter_append]
  · intro hne
    simp [fetch_conversation_history, save_conversation_history, List.filter_append, hne]
  · exact List.filter_sublist _
  · intro t ht
    have hmem := List.of_mem_filter ht
    simpa using hmem

/-- C8 witness: appending another document's turn leaves document 1's fetched
history unchanged. -/
theorem C8_history_insertion_order_witness :
    fetch_conversation_history (save_conversation_history 2 qWhat respSample dbOne).turns 1
      = fetch_conversation_history dbOne.turns 1 :=
  (C8_history_insertion_order dbOne 1 2 qWhat respSample).2.1 (by decide)

/-! ### C9: lookup versus validation order in replace -/

/-- C9 counterexample: calling update_pdf with the absent id 999 and a file
that fails extension validation raises the validation error, not
NotFoundError — so the claim that the lookup happens before validation (and
that NotFoundError is raised regardless of the file) is false on the code. -/
theorem C9_counterexample :
    (update_pdf extractHello 999 fileTxt sEmpty).1
        = Except.error (SvcError.validation invalidTypeMsg)
  ∧ (update_pdf extractHello 999 fileTxt sEmpty).1
        ≠ Except.error (SvcError.notFound 999) := by decide

/-- C9 (amended): update_pdf validates the new file before looking the
document up: a file that fails validation raises that validation error with
the state unchanged (regardless of whether the id exists), and an absent id
raises NotFoundError whenever the file passes validation. -/
theorem C9_validate_before_lookup (extract : List Nat → List (Option String))
    (iid : Nat) (file : UploadFile) (s : Sys) :
    (validate_file file = Except.ok () →
      s.db.integrations.find? (fun r => r.id == iid) = none →
      update_pdf extract iid file s = (Except.error (SvcError.notFound iid), s))
  ∧ (∀ e, validate_file file = Except.error e →
      update_pdf extract iid file s = (Except.error e, s)) := by
  constructor
  · intro hv habs
    simp [update_pdf, hv, get_integration_by_id, habs]
  · intro e hv
    simp [update_pdf, hv]

/-- C9 witness: with a valid .pdf file the absent id 999 gives NotFoundError;
with a .txt file the same absent id gives the validation error instead. -/
theorem C9_validate_before_lookup_witness :
    update_pdf extractHello 999 filePdf sEmpty
        = (Except.error (SvcError.notFound 999), sEmpty)
  ∧ update_pdf extractHello 999 fileTxt sEmpty
        = (Except.error (SvcError.validation invalidTypeMsg), sEmpty) :=
  ⟨(C9_validate_before_lookup extractHello 999 filePdf sEmpty).1 (by decide) (by decide),
   (C9_validate_before_lookup extractHello 999 fileTxt sEmpty).2
      (SvcError.validation invalidTypeMsg) (by decide)⟩

/-! ### C10: zero configured retries -/

/-- C10: with RETRY_ATTEMPTS = 0 the retry loop body never runs, so
generate_response returns Python's implicit None — no model invocation, no
sleep and no raised error — while for any retry count of at least one the
fall-through None result is impossible. -/
theorem C10_zero_retries_returns_none (out : Nat → AttemptOutcome) :
    generate_response 0 out = ⟨Except.ok none, [], 0⟩
  ∧ ∀ n, 1 ≤ n → (generate_response n out).result ≠ Except.ok none := by
  constructor
  · rfl
  · intro n hn
    obtain ⟨m, rfl⟩ : ∃ m, n = m + 1 := ⟨n - 1, by omega⟩
    exact genLoop_ne_ok_none out m 1

/-- C10 witness: the zero-retry call returns None with no calls and no sleeps,
and a three-retry call never returns the fall-through None. -/
theorem C10_zero_retries_returns_none_witness :
    generate_response 0 outRetryAlways = ⟨Except.ok none, [], 0⟩
  ∧ (generate_response 3 outRetryAlways).result ≠ Except.ok none :=
  ⟨(C10_zero_retries_returns_none outRetryAlways).1,
   (C10_zero_retries_returns_none outRetryAlways).2 3 (by decide)⟩

end GeminiApp
